import Mathlib

/-
  Verification development for the browser-side query controller in
  src/2-ollama-privateGPT-chat-with-docs/static/script.js.

  The script wires a speech-recognition engine (annyang), a text input
  field, a send button and a message transcript to one backend endpoint
  (POST /query).  We give a shallow embedding: the DOM transcript is a
  list of entries carrying node identities, the controller state carries
  the input field, the engine listening flag, the mic-active CSS class
  and the pending setTimeout timers, and every event handler is a pure
  function from state (plus the external inputs it consumes) to a new
  state together with a trace of the side effects it performs, in source
  order.
-/

namespace ChatDox

/-- JSON values, as produced by response.json() and consumed by
JSON.stringify.  Numbers are restricted to integers, which covers every
value the script itself constructs. -/
inductive Json where
  | null : Json
  | bool (b : Bool) : Json
  | num (n : Int) : Json
  | str (s : String) : Json
  | arr (xs : List Json) : Json
  | obj (fields : List (String × Json)) : Json
deriving Repr

/-- Lower-case hexadecimal digit for n < 16, as used by the \u escapes
of JSON.stringify. -/
def hexDigit (n : Nat) : Char :=
  if n < 10 then Char.ofNat (48 + n) else Char.ofNat (87 + n)

/-- Escape one character the way JSON.stringify escapes characters
inside a string literal. -/
def escapeJsonChar (c : Char) : String :=
  if c = '"' then "\\\""
  else if c = '\\' then "\\\\"
  else if c = Char.ofNat 8 then "\\b"
  else if c = Char.ofNat 9 then "\\t"
  else if c = Char.ofNat 10 then "\\n"
  else if c = Char.ofNat 12 then "\\f"
  else if c = Char.ofNat 13 then "\\r"
  else if c.toNat < 32 then
    String.mk ['\\', 'u', '0', '0', hexDigit (c.toNat / 16), hexDigit (c.toNat % 16)]
  else String.singleton c

/-- A JSON string literal with its surrounding quotes, as emitted by
JSON.stringify. -/
def escapeJsonString (s : String) : String :=
  "\"" ++ String.join (s.data.map escapeJsonChar) ++ "\""

mutual

/-- JSON.stringify(v, null, 2) at enclosing indentation ind: pretty
serialization with two-space indentation steps. -/
def stringifyAt (ind : String) : Json → String
  | .null => "null"
  | .bool true => "true"
  | .bool false => "false"
  | .num n => toString n
  | .str s => escapeJsonString s
  | .arr [] => "[]"
  | .arr (x :: xs) =>
      "[\n" ++ stringifyArrItems (ind ++ "  ") x xs ++ "\n" ++ ind ++ "]"
  | .obj [] => "\x7b\x7d"
  | .obj (f :: fs) =>
      "\x7b\n" ++ stringifyObjFields (ind ++ "  ") f fs ++ "\n" ++ ind ++ "\x7d"
termination_by v => sizeOf v

/-- Comma-and-newline separated array items at indentation ind. -/
def stringifyArrItems (ind : String) (x : Json) (xs : List Json) : String :=
  match xs with
  | [] => ind ++ stringifyAt ind x
  | y :: ys => ind ++ stringifyAt ind x ++ ",\n" ++ stringifyArrItems ind y ys
termination_by sizeOf x + sizeOf xs

/-- Comma-and-newline separated object fields at indentation ind. -/
def stringifyObjFields (ind : String) (f : String × Json) (fs : List (String × Json)) : String :=
  match fs with
  | [] => ind ++ escapeJsonString f.1 ++ ": " ++ stringifyAt ind f.2
  | g :: gs =>
      ind ++ escapeJsonString f.1 ++ ": " ++ stringifyAt ind f.2 ++ ",\n" ++
        stringifyObjFields ind g gs
termination_by sizeOf f + sizeOf fs
decreasing_by
  all_goals obtain ⟨a, b⟩ := f
  all_goals simp
  all_goals omega

end

/-- JSON.stringify(v, null, 2) as called on line 96 of script.js. -/
def jsonStringify2 (v : Json) : String := stringifyAt "" v

/-- The CSS role class given to a transcript div when it is created:
query-message, response, error or loading-spinner. -/
inductive Role where
  | queryMsg : Role
  | response : Role
  | error : Role
  | spinner : Role
deriving DecidableEq, Repr

/-- How the content of a div was assigned: via innerHTML (markup is
parsed), via innerText (shown literally), or never assigned (the
loading spinner gets no content). -/
inductive RenderMode where
  | html : RenderMode
  | text : RenderMode
  | unset : RenderMode
deriving DecidableEq, Repr

/-- One div appended to the messagesContainer.  The id models DOM node
identity: loadingSpinner.remove() removes exactly the node it was
called on, so removal is by id. -/
structure Entry where
  id : Nat
  role : Role
  content : String
  mode : RenderMode
deriving DecidableEq, Repr

/-- The mutable state the script observes and updates: the transcript
children of messagesContainer, the value of the query input field, the
engine listening flag (annyang.isListening), the mic-active class on the
voice button image, the set of scheduled-but-unfired setTimeout timers,
the inactivityTimer variable, and fresh-id counters for DOM nodes and
timers. -/
structure UIState where
  messages : List Entry
  queryField : String
  listening : Bool
  micActive : Bool
  pendingTimers : List Nat
  inactivityTimer : Option Nat
  nextId : Nat
  nextTimerId : Nat
deriving DecidableEq, Repr

/-- State at page load: empty transcript, empty field, engine idle,
inactivityTimer declared but undefined, no timer scheduled. -/
def initState : UIState :=
  { messages := []
    queryField := ""
    listening := false
    micActive := false
    pendingTimers := []
    inactivityTimer := none
    nextId := 0
    nextTimerId := 0 }

/-- Observable side effects, recorded in the order the code performs
them. -/
inductive Event where
  | append (e : Entry) : Event
  | removeNode (id : Nat) : Event
  | setField (s : String) : Event
  | fetchQuery (body : Json) : Event
  | abortEngine : Event
  | startEngine : Event
  | micOn : Event
  | micOff : Event
  | clearTimer : Event
  | setTimer (id : Nat) : Event
  | preventDefault : Event
deriving Repr

/-- True exactly on fetchQuery events. -/
def isFetchEvent : Event → Bool
  | .fetchQuery _ => true
  | _ => false

/-- True exactly on setField events (writes to the input field). -/
def isSetFieldEvent : Event → Bool
  | .setField _ => true
  | _ => false

/-- Number of network calls recorded in a trace. -/
def fetchCount (evs : List Event) : Nat := (evs.filter isFetchEvent).length

/-- Number of loading-spinner placeholders present in a transcript. -/
def countSpinners (ms : List Entry) : Nat :=
  (ms.filter (fun e => e.role = Role.spinner)).length

/-- Number of query entries present in a transcript. -/
def countQueryEntries (ms : List Entry) : Nat :=
  (ms.filter (fun e => e.role = Role.queryMsg)).length

/-- Number of error entries present in a transcript. -/
def countErrors (ms : List Entry) : Nat :=
  (ms.filter (fun e => e.role = Role.error)).length

/-- All node ids in the transcript are below the fresh-id counter; true
in every reachable state since createElement hands out fresh nodes. -/
def wfIds (s : UIState) : Bool :=
  s.messages.all (fun e => e.id < s.nextId)

/-- How the fetch to /query resolves, seen from the awaiting handler:
response.ok with JSON body giving a response string, a non-success
status with a JSON error body, or a thrown network/transport
exception. -/
inductive FetchOutcome where
  | ok (responseText : String) : FetchOutcome
  | httpError (payload : Json) : FetchOutcome
  | exception : FetchOutcome
deriving Repr

/-- The whitespace class of the JS String.prototype.trim, restricted to
the ASCII whitespace characters. -/
def isJsWhitespace (c : Char) : Bool :=
  c = ' ' ∨ c = Char.ofNat 9 ∨ c = Char.ofNat 10 ∨ c = Char.ofNat 11 ∨
    c = Char.ofNat 12 ∨ c = Char.ofNat 13

/-- JS String.prototype.trim: strip leading and trailing whitespace. -/
def jsTrim (s : String) : String :=
  String.mk (((s.data.dropWhile isJsWhitespace).reverse.dropWhile isJsWhitespace).reverse)

/-- Character-by-character body of the global regex replacement on
script.js line 83: a newline becomes the <br> tag, any other character
is kept. -/
def replaceNewlineChars : List Char → String
  | [] => ""
  | c :: cs => (if c = '\n' then "<br>" else String.singleton c) ++ replaceNewlineChars cs

/-- result.response.replace(backslash-n regex with global flag, "<br>"):
every newline character becomes a <br> tag (script.js line 83). -/
def jsReplaceNewlines (s : String) : String :=
  replaceNewlineChars s.data

/-- Generic message appended on the transport-exception path
(script.js line 104). -/
def transportErrorText : String :=
  "An error occurred while processing your query. Please try again later."

/-- Inline error appended when the field is empty on a manual submit
(script.js lines 117 and 133). -/
def emptyQueryErrorText : String :=
  "Error: Please enter a query before sending."

/-- The query-message div created at the top of sendQueryToServer:
innerHTML is assigned the raw query (script.js lines 52 to 54). -/
def queryDivOf (s : UIState) (query : String) : Entry :=
  { id := s.nextId, role := .queryMsg, content := query, mode := .html }

/-- The loading-spinner div created next: it gets a class but no
content assignment (script.js lines 56 to 57). -/
def spinnerDivOf (s : UIState) : Entry :=
  { id := s.nextId + 1, role := .spinner, content := "", mode := .unset }

/-- The JSON request body: JSON.stringify of the object with the single
field query (script.js lines 66 and 74). -/
def requestBody (query : String) : Json :=
  Json.obj [("query", Json.str query)]

/-- The synchronous part of sendQueryToServer, up to and including the
issuing of the fetch (script.js lines 51 to 75): create the query div
and the spinner div, append both, clear the input field, POST the
body. -/
def sendSync (query : String) (s : UIState) : UIState × List Event :=
  let queryDiv := queryDivOf s query
  let loadingSpinner := spinnerDivOf s
  ({ s with
      messages := s.messages ++ [queryDiv, loadingSpinner]
      queryField := ""
      nextId := s.nextId + 2 },
   [.append queryDiv, .append loadingSpinner, .setField "",
    .fetchQuery (requestBody query)])

/-- sendQueryToServer (script.js lines 51 to 108): the synchronous
part, then the continuation chosen by the fetch outcome.
On ok: read the JSON, remove the spinner, append a response div whose
innerHTML is the response text with newlines replaced by <br>, then
annyang.abort() and remove the mic-active class (lines 77 to 90).
On a non-success status: read the JSON error body and append an error
div whose innerText is "Error: " followed by
JSON.stringify(errorResult, null, 2); the spinner is not removed
(lines 92 to 99).
On an exception: append an error div whose innerHTML is a generic
message; the spinner is again not removed (lines 100 to 107). -/
def sendQueryToServer (query : String) (outcome : FetchOutcome) (s : UIState) :
    UIState × List Event :=
  let (s1, pre) := sendSync query s
  let spinnerId := (spinnerDivOf s).id
  match outcome with
  | .ok responseText =>
      let responseDiv : Entry :=
        { id := s1.nextId, role := .response,
          content := jsReplaceNewlines responseText, mode := .html }
      ({ s1 with
          messages := (s1.messages.filter (fun e => e.id ≠ spinnerId)) ++ [responseDiv]
          nextId := s1.nextId + 1
          listening := false
          micActive := false },
       pre ++ [.removeNode spinnerId, .append responseDiv, .abortEngine, .micOff])
  | .httpError payload =>
      let errorDiv : Entry :=
        { id := s1.nextId, role := .error,
          content := "Error: " ++ jsonStringify2 payload, mode := .text }
      ({ s1 with
          messages := s1.messages ++ [errorDiv]
          nextId := s1.nextId + 1 },
       pre ++ [.append errorDiv])
  | .exception =>
      let errorDiv : Entry :=
        { id := s1.nextId, role := .error,
          content := transportErrorText, mode := .html }
      ({ s1 with
          messages := s1.messages ++ [errorDiv]
          nextId := s1.nextId + 1 },
       pre ++ [.append errorDiv])

/-- The voice button click handler (script.js lines 40 to 48): if the
engine is listening, abort it and remove the mic-active class,
otherwise start continuous listening and add the class. -/
def voiceButtonClick (s : UIState) : UIState × List Event :=
  if s.listening then
    ({ s with listening := false, micActive := false }, [.abortEngine, .micOff])
  else
    ({ s with listening := true, micActive := true }, [.startEngine, .micOn])

/-- The wildcard speech command handler (script.js lines 19 to 33),
fired with each live transcript fragment: write the fragment into the
input field, clearTimeout the stored inactivityTimer (a no-op when the
variable is undefined or that timer already fired), then setTimeout a
fresh 3000 ms timer and store its id.  No network call happens here;
the submission, if any, happens at timer expiry. -/
def queryCommand (fragment : String) (s : UIState) : UIState × List Event :=
  let afterClear : UIState :=
    match s.inactivityTimer with
    | some t => { s with pendingTimers := s.pendingTimers.filter (fun u => u ≠ t) }
    | none => s
  let newId := afterClear.nextTimerId
  ({ afterClear with
      queryField := fragment
      pendingTimers := afterClear.pendingTimers ++ [newId]
      inactivityTimer := some newId
      nextTimerId := newId + 1 },
   [.setField fragment, .clearTimer, .setTimer newId])

/-- Expiry of a scheduled timer t (the setTimeout callback on script.js
lines 27 to 32): the runtime fires t only if it is still pending;
firing removes it from the pending set, then the callback trims the
current field value and calls sendQueryToServer when it is non-empty,
and does nothing when it is empty. -/
def timerExpiry (t : Nat) (outcome : FetchOutcome) (s : UIState) :
    UIState × List Event :=
  if s.pendingTimers.contains t then
    let s0 : UIState := { s with pendingTimers := s.pendingTimers.filter (fun u => u ≠ t) }
    let trimmedQuery := jsTrim s0.queryField
    if trimmedQuery ≠ "" then
      sendQueryToServer trimmedQuery outcome s0
    else
      (s0, [])
  else
    (s, [])

/-- The error div built by both manual submit handlers on an empty
trimmed field: innerHTML is assigned the inline error text
(script.js lines 115 to 117 and 131 to 133). -/
def emptyQueryErrorDiv (s : UIState) : Entry :=
  { id := s.nextId, role := .error, content := emptyQueryErrorText, mode := .html }

/-- The send button click handler (script.js lines 111 to 123): trim
the field; when empty, append the inline error div and do not submit;
otherwise call sendQueryToServer with the trimmed text. -/
def sendButtonClick (outcome : FetchOutcome) (s : UIState) : UIState × List Event :=
  let query := jsTrim s.queryField
  if query = "" then
    let errorDiv := emptyQueryErrorDiv s
    ({ s with messages := s.messages ++ [errorDiv], nextId := s.nextId + 1 },
     [.append errorDiv])
  else
    sendQueryToServer query outcome s

/-- A keydown event on the query field, as the handler on script.js
lines 126 to 142 reads it. -/
structure KeyEvent where
  key : String
  shiftKey : Bool
deriving DecidableEq, Repr

/-- The keydown handler on the query field (script.js lines 126 to
142): on Enter without shift, behave exactly like the send button
click, then preventDefault; any other key does nothing. -/
def queryKeydown (ev : KeyEvent) (outcome : FetchOutcome) (s : UIState) :
    UIState × List Event :=
  if ev.key = "Enter" ∧ ev.shiftKey = false then
    let query := jsTrim s.queryField
    if query = "" then
      let errorDiv := emptyQueryErrorDiv s
      ({ s with messages := s.messages ++ [errorDiv], nextId := s.nextId + 1 },
       [.append errorDiv, .preventDefault])
    else
      let (s1, evs) := sendQueryToServer query outcome s
      (s1, evs ++ [.preventDefault])
  else
    (s, [])

/-- The invariant on the timer resource: every pending timer is the one
stored in the inactivityTimer variable, so at most one timer is
pending. -/
def timerInv (s : UIState) : Prop :=
  s.pendingTimers = [] ∨ s.pendingTimers = s.inactivityTimer.toList

/-- which timer-related calls a trace contains. -/
def isTimerEvent : Event → Bool
  | .clearTimer => true
  | .setTimer _ => true
  | _ => false

/-- True exactly on removeNode events. -/
def isRemoveEvent : Event → Bool
  | .removeNode _ => true
  | _ => false

/-- The divs appended to the transcript during a trace, in order. -/
def appendedEntries (evs : List Event) : List Entry :=
  evs.filterMap (fun e => match e with | .append d => some d | _ => none)

/-- In a well-formed state, no existing transcript entry carries the id
of the freshly created spinner node, so the filter that models
loadingSpinner.remove() keeps all of them. -/
lemma filter_spinner_id_of_wf (s : UIState) (h : wfIds s = true) :
    s.messages.filter (fun e => e.id ≠ s.nextId + 1) = s.messages := by
  refine List.filter_eq_self.mpr ?_
  intro e he
  have hlt : e.id < s.nextId := by
    have hall := List.all_eq_true.mp h e he
    simpa using hall
  simp only [decide_eq_true_eq, ne_eq]
  omega

/-- C4: for every non-empty query string, Submit appends a query entry
and then a loading placeholder to the transcript, clears the input
field, and issues a POST to /query whose JSON body is exactly the
object with the single field query bound to the query string; the trace
of the full call starts with exactly these four effects in this
order. -/
theorem C4_submit_effects (q : String) (s : UIState) (outcome : FetchOutcome)
    (hq : q ≠ "") :
    (sendSync q s).1.messages = s.messages ++ [queryDivOf s q, spinnerDivOf s] ∧
    (queryDivOf s q).role = Role.queryMsg ∧
    (queryDivOf s q).content = q ∧
    (spinnerDivOf s).role = Role.spinner ∧
    (sendSync q s).1.queryField = "" ∧
    (sendQueryToServer q outcome s).2.take 4 =
      [Event.append (queryDivOf s q), Event.append (spinnerDivOf s),
       Event.setField "", Event.fetchQuery (Json.obj [("query", Json.str q)])] := by
  refine ⟨by simp [sendSync], rfl, rfl, rfl, by simp [sendSync], ?_⟩
  cases outcome <;>
    simp [sendQueryToServer, sendSync, requestBody]

/-- C4 witness: the theorem at query "hello", the exception outcome and
the initial state. -/
theorem C4_submit_effects_witness :
    "hello" ≠ "" ∧
    ((sendSync "hello" initState).1.messages =
      initState.messages ++ [queryDivOf initState "hello", spinnerDivOf initState] ∧
     (queryDivOf initState "hello").role = Role.queryMsg ∧
     (queryDivOf initState "hello").content = "hello" ∧
     (spinnerDivOf initState).role = Role.spinner ∧
     (sendSync "hello" initState).1.queryField = "" ∧
     (sendQueryToServer "hello" FetchOutcome.exception initState).2.take 4 =
       [Event.append (queryDivOf initState "hello"), Event.append (spinnerDivOf initState),
        Event.setField "", Event.fetchQuery (Json.obj [("query", Json.str "hello")])]) :=
  ⟨by decide, C4_submit_effects "hello" initState FetchOutcome.exception (by decide)⟩

/-- C10: on every submission the input field is cleared (the setField
of the empty string) strictly before the fetch is issued, and on no
outcome does any later effect write to the field, so the submitted text
is never restored; the final field value is empty. -/
theorem C10_field_cleared_before_fetch (q : String) (s : UIState)
    (outcome : FetchOutcome) :
    (sendQueryToServer q outcome s).2.take 4 =
      [Event.append (queryDivOf s q), Event.append (spinnerDivOf s),
       Event.setField "", Event.fetchQuery (requestBody q)] ∧
    ((sendQueryToServer q outcome s).2.drop 4).filter isSetFieldEvent = [] ∧
    (sendQueryToServer q outcome s).1.queryField = "" := by
  cases outcome <;>
    simp [sendQueryToServer, sendSync, isSetFieldEvent]

/-- C6: a submission completing with a non-success HTTP status appends
exactly one error entry, whose innerText is the string Error: followed
by JSON.stringify of the raw error payload with indent 2, and the
loading placeholder is not removed; a submission ending in a transport
exception appends exactly one generic error entry and the placeholder
is likewise not removed. -/
theorem C6_error_paths (q : String) (payload : Json) (s : UIState) :
    (sendQueryToServer q (FetchOutcome.httpError payload) s).1.messages =
      s.messages ++ [queryDivOf s q, spinnerDivOf s,
        { id := s.nextId + 2, role := Role.error,
          content := "Error: " ++ jsonStringify2 payload, mode := RenderMode.text }] ∧
    countSpinners (sendQueryToServer q (FetchOutcome.httpError payload) s).1.messages =
      countSpinners s.messages + 1 ∧
    ((sendQueryToServer q (FetchOutcome.httpError payload) s).2.filter isRemoveEvent) = [] ∧
    (sendQueryToServer q FetchOutcome.exception s).1.messages =
      s.messages ++ [queryDivOf s q, spinnerDivOf s,
        { id := s.nextId + 2, role := Role.error,
          content := transportErrorText, mode := RenderMode.html }] ∧
    countSpinners (sendQueryToServer q FetchOutcome.exception s).1.messages =
      countSpinners s.messages + 1 ∧
    ((sendQueryToServer q FetchOutcome.exception s).2.filter isRemoveEvent) = [] := by
  refine ⟨?_, ?_, ?_, ?_, ?_, ?_⟩ <;>
    simp [sendQueryToServer, sendSync, countSpinners, queryDivOf, spinnerDivOf,
      isRemoveEvent, List.filter_append]

/-- The replacement distributes over list append. -/
lemma replaceNewlineChars_append (l1 l2 : List Char) :
    replaceNewlineChars (l1 ++ l2) =
      replaceNewlineChars l1 ++ replaceNewlineChars l2 := by
  induction l1 with
  | nil => simp [replaceNewlineChars]
  | cons c cs ih => simp [replaceNewlineChars, ih, String.append_assoc]

/-- Unpacked form of the wfIds bound. -/
lemma wfIds_lt (s : UIState) (hwf : wfIds s = true) :
    ∀ e ∈ s.messages, e.id < s.nextId := by
  intro e he
  have hall := List.all_eq_true.mp hwf e he
  simpa using hall

/-- Spinner counting distributes over append. -/
lemma countSpinners_append (l1 l2 : List Entry) :
    countSpinners (l1 ++ l2) = countSpinners l1 + countSpinners l2 := by
  simp [countSpinners, List.filter_append]

/-- Shape of the transcript after a successful submission: the filter
standing for loadingSpinner.remove() drops exactly the spinner node,
leaving the old transcript, the query entry and the new response
entry. -/
lemma sendQueryToServer_ok_messages (q resp : String) (s : UIState)
    (hwf : wfIds s = true) :
    (sendQueryToServer q (FetchOutcome.ok resp) s).1.messages =
      s.messages ++ [queryDivOf s q,
        { id := s.nextId + 2, role := Role.response,
          content := jsReplaceNewlines resp, mode := RenderMode.html }] := by
  have hlt := wfIds_lt s hwf
  simp [sendQueryToServer, sendSync, queryDivOf, spinnerDivOf, List.filter_append]
  intro a ha
  have := hlt a ha
  omega

/-- Shape of the transcript after a server-reported error: nothing is
removed, the error entry is appended after the spinner. -/
lemma sendQueryToServer_httpError_messages (q : String) (payload : Json)
    (s : UIState) :
    (sendQueryToServer q (FetchOutcome.httpError payload) s).1.messages =
      s.messages ++ [queryDivOf s q, spinnerDivOf s,
        { id := s.nextId + 2, role := Role.error,
          content := "Error: " ++ jsonStringify2 payload, mode := RenderMode.text }] := by
  simp [sendQueryToServer, sendSync, queryDivOf, spinnerDivOf]

/-- Shape of the transcript after a transport exception: nothing is
removed, the generic error entry is appended after the spinner. -/
lemma sendQueryToServer_exception_messages (q : String) (s : UIState) :
    (sendQueryToServer q FetchOutcome.exception s).1.messages =
      s.messages ++ [queryDivOf s q, spinnerDivOf s,
        { id := s.nextId + 2, role := Role.error,
          content := transportErrorText, mode := RenderMode.html }] := by
  simp [sendQueryToServer, sendSync, queryDivOf, spinnerDivOf]

/-- C5: a submission whose request succeeds with response text resp
removes the loading placeholder and appends exactly one response entry
whose innerHTML is resp with every newline replaced by a <br> tag, so
the transcript for the submission reads query entry then response entry
in that order; moreover the replacement turns each newline into a line
break, in the sense that it maps text around a newline to the two
rendered pieces joined by <br>. -/
theorem C5_success_response (q resp : String) (s : UIState)
    (hwf : wfIds s = true) :
    (sendQueryToServer q (FetchOutcome.ok resp) s).1.messages =
      s.messages ++ [queryDivOf s q,
        { id := s.nextId + 2, role := Role.response,
          content := jsReplaceNewlines resp, mode := RenderMode.html }] ∧
    countSpinners (sendQueryToServer q (FetchOutcome.ok resp) s).1.messages =
      countSpinners s.messages ∧
    (∀ a b : String, jsReplaceNewlines (a ++ "\n" ++ b) =
      jsReplaceNewlines a ++ "<br>" ++ jsReplaceNewlines b) := by
  have hmsgs := sendQueryToServer_ok_messages q resp s hwf
  refine ⟨hmsgs, ?_, ?_⟩
  · rw [hmsgs, countSpinners_append]
    simp [countSpinners, queryDivOf]
  · intro a b
    have hnl : ("\n" : String).data = ['\n'] := rfl
    simp [jsReplaceNewlines, String.data_append, replaceNewlineChars_append,
      hnl, replaceNewlineChars, String.append_assoc]

/-- C5 witness: the theorem at the scenario of the spec, query hello
with response text hi-newline-there, from the initial state. -/
theorem C5_success_response_witness :
    wfIds initState = true ∧
    (sendQueryToServer "hello" (FetchOutcome.ok "hi\nthere") initState).1.messages =
      initState.messages ++ [queryDivOf initState "hello",
        { id := initState.nextId + 2, role := Role.response,
          content := jsReplaceNewlines "hi\nthere", mode := RenderMode.html }] ∧
    countSpinners (sendQueryToServer "hello" (FetchOutcome.ok "hi\nthere") initState).1.messages =
      countSpinners initState.messages ∧
    (∀ a b : String, jsReplaceNewlines (a ++ "\n" ++ b) =
      jsReplaceNewlines a ++ "<br>" ++ jsReplaceNewlines b) :=
  ⟨by decide, C5_success_response "hello" "hi\nthere" initState (by decide)⟩

/-- C1 is refuted at a concrete run: submitting the query hi from the
initial state and receiving a server-reported error leaves the loading
placeholder in the transcript (one spinner entry remains although none
existed before the submission), so the placeholder is not removed on
that outcome. -/
theorem C1_counterexample :
    countSpinners initState.messages = 0 ∧
    countSpinners (sendQueryToServer "hi"
      (FetchOutcome.httpError (Json.obj [("error", Json.str "oops")]))
      initState).1.messages = 1 := by
  constructor <;> rfl

/-- C1 as amended: while a submission is in flight exactly one loading
placeholder for it exists in the transcript; on a success response it
is removed exactly once (a single removeNode of its id), but on a
server-reported error or a transport exception no removal happens and
the placeholder stays in the transcript. -/
theorem C1_amended_placeholder (q : String) (s : UIState)
    (hwf : wfIds s = true) (h0 : countSpinners s.messages = 0) :
    countSpinners (sendSync q s).1.messages = 1 ∧
    (∀ resp,
      countSpinners (sendQueryToServer q (FetchOutcome.ok resp) s).1.messages = 0 ∧
      (sendQueryToServer q (FetchOutcome.ok resp) s).2.filter isRemoveEvent =
        [Event.removeNode (spinnerDivOf s).id]) ∧
    (∀ payload,
      countSpinners (sendQueryToServer q (FetchOutcome.httpError payload) s).1.messages = 1 ∧
      (sendQueryToServer q (FetchOutcome.httpError payload) s).2.filter isRemoveEvent = []) ∧
    (countSpinners (sendQueryToServer q FetchOutcome.exception s).1.messages = 1 ∧
      (sendQueryToServer q FetchOutcome.exception s).2.filter isRemoveEvent = []) := by
  refine ⟨?_, fun resp => ⟨?_, ?_⟩, fun payload => ⟨?_, ?_⟩, ?_, ?_⟩
  · have hsync : (sendSync q s).1.messages =
        s.messages ++ [queryDivOf s q, spinnerDivOf s] := by
      simp [sendSync]
    rw [hsync, countSpinners_append, h0]
    rfl
  · rw [sendQueryToServer_ok_messages q resp s hwf, countSpinners_append, h0]
    rfl
  · simp [sendQueryToServer, sendSync, isRemoveEvent, spinnerDivOf]
  · rw [sendQueryToServer_httpError_messages q payload s, countSpinners_append, h0]
    rfl
  · simp [sendQueryToServer, sendSync, isRemoveEvent]
  · rw [sendQueryToServer_exception_messages q s, countSpinners_append, h0]
    rfl
  · simp [sendQueryToServer, sendSync, isRemoveEvent]

/-- C1 witness for the amended statement: the amended theorem applied
at query hi and the initial state. -/
theorem C1_amended_placeholder_witness :
    (wfIds initState = true ∧ countSpinners initState.messages = 0) ∧
    (countSpinners (sendSync "hi" initState).1.messages = 1 ∧
    (∀ resp,
      countSpinners (sendQueryToServer "hi" (FetchOutcome.ok resp) initState).1.messages = 0 ∧
      (sendQueryToServer "hi" (FetchOutcome.ok resp) initState).2.filter isRemoveEvent =
        [Event.removeNode (spinnerDivOf initState).id]) ∧
    (∀ payload,
      countSpinners (sendQueryToServer "hi" (FetchOutcome.httpError payload) initState).1.messages = 1 ∧
      (sendQueryToServer "hi" (FetchOutcome.httpError payload) initState).2.filter isRemoveEvent = []) ∧
    (countSpinners (sendQueryToServer "hi" FetchOutcome.exception initState).1.messages = 1 ∧
      (sendQueryToServer "hi" FetchOutcome.exception initState).2.filter isRemoveEvent = [])) :=
  ⟨⟨by decide, by decide⟩, C1_amended_placeholder "hi" initState (by decide) (by decide)⟩

/-- A state in which the engine is listening, the indicator is active
and the field holds the text hi, as reached by clicking the voice
button once and typing into the field. -/
def listeningState : UIState :=
  { initState with listening := true, micActive := true, queryField := "hi" }

/-- C2 is refuted at a concrete run: from a state in which the engine is
listening, a submission made through the send button (so not originated
by voice input) that succeeds turns the listening state off, although
the claim says a successful submission not originating from voice input
does not change the listening state. -/
theorem C2_counterexample :
    listeningState.listening = true ∧
    (sendButtonClick (FetchOutcome.ok "yo") listeningState).1.listening = false := by
  constructor <;> rfl

/-- C2 as amended: the listening indicator has exactly the two states
of a boolean; a toggle while listening stops the engine and clears the
indicator, and every submission that completes successfully stops the
engine and clears the indicator regardless of whether it originated
from voice input or from the send button or Enter key, while failed
submissions and the speech-fragment handler leave the listening state
unchanged. -/
theorem C2_amended_listening (s : UIState) (q fragment resp : String)
    (payload : Json) :
    (s.listening = true →
      (voiceButtonClick s).1.listening = false ∧
      (voiceButtonClick s).1.micActive = false) ∧
    ((sendQueryToServer q (FetchOutcome.ok resp) s).1.listening = false ∧
      (sendQueryToServer q (FetchOutcome.ok resp) s).1.micActive = false) ∧
    ((sendQueryToServer q (FetchOutcome.httpError payload) s).1.listening = s.listening) ∧
    ((sendQueryToServer q FetchOutcome.exception s).1.listening = s.listening) ∧
    ((queryCommand fragment s).1.listening = s.listening) := by
  refine ⟨fun h => ?_, ⟨?_, ?_⟩, ?_, ?_, ?_⟩ <;>
    simp [voiceButtonClick, sendQueryToServer, sendSync, queryCommand, *] <;>
    cases s.inactivityTimer <;> simp

/-- C2 witness for the amended statement: the amended theorem applied
at a concrete listening state with a concrete query, fragment, response
and error payload. -/
theorem C2_amended_listening_witness :
    listeningState.listening = true ∧
    (voiceButtonClick listeningState).1.listening = false ∧
    (sendQueryToServer "q" (FetchOutcome.ok "r") listeningState).1.listening = false :=
  ⟨rfl,
   ((C2_amended_listening listeningState "q" "frag" "r" Json.null).1 rfl).1,
   ((C2_amended_listening listeningState "q" "frag" "r" Json.null).2.1).1⟩

/-- A state whose input field holds only whitespace, as in the
empty-submit scenario of the spec. -/
def whitespaceState : UIState := { initState with queryField := "  " }

/-- The state reached from page load after one speech fragment: the
field holds the fragment and one timer is pending. -/
def afterFragmentState : UIState := (queryCommand "hel" initState).1

/-- C3: the speech-fragment handler replaces the input field contents
with the fragment, cancels any pending inactivity timer and schedules a
new one without issuing a network call, so exactly one timer is pending
afterwards and the single-pending-timer invariant is preserved; firing
a pending timer issues exactly one submission with the trimmed field
text when that text is non-empty, and does nothing at all when it is
empty. -/
theorem C3_speech_debounce (s : UIState) (fragment : String) (t : Nat)
    (outcome : FetchOutcome) (hinv : timerInv s)
    (ht : s.pendingTimers.contains t = true) :
    (queryCommand fragment s).1.queryField = fragment ∧
    fetchCount (queryCommand fragment s).2 = 0 ∧
    (queryCommand fragment s).1.pendingTimers = [s.nextTimerId] ∧
    timerInv (queryCommand fragment s).1 ∧
    (queryCommand fragment s).2 =
      [Event.setField fragment, Event.clearTimer, Event.setTimer s.nextTimerId] ∧
    (jsTrim s.queryField ≠ "" →
      (timerExpiry t outcome s).2.filter isFetchEvent =
        [Event.fetchQuery (requestBody (jsTrim s.queryField))] ∧
      fetchCount (timerExpiry t outcome s).2 = 1) ∧
    (jsTrim s.queryField = "" →
      (timerExpiry t outcome s).2 = [] ∧
      (timerExpiry t outcome s).1.messages = s.messages ∧
      (timerExpiry t outcome s).1.queryField = s.queryField) := by
  have htm : t ∈ s.pendingTimers := by simpa using ht
  refine ⟨?_, ?_, ?_, ?_, ?_, ?_, ?_⟩
  · cases hvar : s.inactivityTimer <;> simp [queryCommand, hvar]
  · cases hvar : s.inactivityTimer <;>
      simp [queryCommand, hvar, fetchCount, isFetchEvent]
  · rcases hinv with h | h <;> cases hvar : s.inactivityTimer <;>
      simp [queryCommand, hvar, h]
  · rcases hinv with h | h <;> cases hvar : s.inactivityTimer <;>
      simp [queryCommand, timerInv, hvar, h]
  · cases hvar : s.inactivityTimer <;> simp [queryCommand, hvar]
  · intro hne
    cases outcome <;>
      simp [timerExpiry, htm, hne, sendQueryToServer, sendSync, fetchCount,
        isFetchEvent, requestBody]
  · intro hemp
    simp [timerExpiry, htm, hemp]

/-- C3 witness: the theorem applied after one speech fragment from page
load, with timer id 0 pending, fragment text next and field text hel. -/
theorem C3_speech_debounce_witness :
    (timerInv afterFragmentState ∧
      afterFragmentState.pendingTimers.contains 0 = true) ∧
    (queryCommand "next" afterFragmentState).1.queryField = "next" ∧
    (queryCommand "next" afterFragmentState).1.pendingTimers =
      [afterFragmentState.nextTimerId] ∧
    ((timerExpiry 0 FetchOutcome.exception afterFragmentState).2.filter isFetchEvent =
      [Event.fetchQuery (requestBody (jsTrim afterFragmentState.queryField))]) :=
  ⟨⟨Or.inr rfl, by decide⟩,
   (C3_speech_debounce afterFragmentState "next" 0 FetchOutcome.exception
      (Or.inr rfl) (by decide)).1,
   (C3_speech_debounce afterFragmentState "next" 0 FetchOutcome.exception
      (Or.inr rfl) (by decide)).2.2.1,
   ((C3_speech_debounce afterFragmentState "next" 0 FetchOutcome.exception
      (Or.inr rfl) (by decide)).2.2.2.2.2.1 (by decide)).1⟩

/-- C7: a manual submit attempt, through the send button or the Enter
key without shift, whose field text trims to the empty string appends
exactly one inline error entry with the fixed text, issues no network
call and appends no query entry; with non-empty trimmed text the
submission is issued immediately within the handler itself, with no
timer interaction at all. -/
theorem C7_manual_submit (s : UIState) (outcome : FetchOutcome) (ev : KeyEvent)
    (hkey : ev.key = "Enter") (hshift : ev.shiftKey = false) :
    (jsTrim s.queryField = "" →
      (sendButtonClick outcome s).1.messages = s.messages ++ [emptyQueryErrorDiv s] ∧
      (emptyQueryErrorDiv s).content = emptyQueryErrorText ∧
      (emptyQueryErrorDiv s).role = Role.error ∧
      fetchCount (sendButtonClick outcome s).2 = 0 ∧
      countQueryEntries (sendButtonClick outcome s).1.messages =
        countQueryEntries s.messages ∧
      (queryKeydown ev outcome s).1.messages = s.messages ++ [emptyQueryErrorDiv s] ∧
      fetchCount (queryKeydown ev outcome s).2 = 0) ∧
    (jsTrim s.queryField ≠ "" →
      (sendButtonClick outcome s).2.filter isFetchEvent =
        [Event.fetchQuery (requestBody (jsTrim s.queryField))] ∧
      (sendButtonClick outcome s).2.filter isTimerEvent = [] ∧
      (sendButtonClick outcome s).1.pendingTimers = s.pendingTimers ∧
      (queryKeydown ev outcome s).2.filter isFetchEvent =
        [Event.fetchQuery (requestBody (jsTrim s.queryField))] ∧
      (queryKeydown ev outcome s).2.filter isTimerEvent = []) := by
  constructor
  · intro hemp
    refine ⟨?_, rfl, rfl, ?_, ?_, ?_, ?_⟩ <;>
      simp [sendButtonClick, queryKeydown, hemp, hkey, hshift, fetchCount,
        isFetchEvent, countQueryEntries, List.filter_append, emptyQueryErrorDiv]
  · intro hne
    refine ⟨?_, ?_, ?_, ?_, ?_⟩ <;> cases outcome <;>
      simp [sendButtonClick, queryKeydown, sendQueryToServer, sendSync, hne,
        hkey, hshift, isFetchEvent, isTimerEvent, requestBody]

/-- C7 witness: the theorem at the Enter key event, once at the
whitespace-only field state of the spec scenario and once at a state
whose field holds the text hi. -/
theorem C7_manual_submit_witness :
    (jsTrim whitespaceState.queryField = "" ∧
      (sendButtonClick FetchOutcome.exception whitespaceState).1.messages =
        whitespaceState.messages ++ [emptyQueryErrorDiv whitespaceState] ∧
      fetchCount (sendButtonClick FetchOutcome.exception whitespaceState).2 = 0) ∧
    (jsTrim listeningState.queryField ≠ "" ∧
      (sendButtonClick FetchOutcome.exception listeningState).2.filter isFetchEvent =
        [Event.fetchQuery (requestBody (jsTrim listeningState.queryField))]) :=
  ⟨⟨by decide,
    ((C7_manual_submit whitespaceState FetchOutcome.exception ⟨"Enter", false⟩
        rfl rfl).1 (by decide)).1,
    ((C7_manual_submit whitespaceState FetchOutcome.exception ⟨"Enter", false⟩
        rfl rfl).1 (by decide)).2.2.2.1⟩,
   ⟨by decide,
    ((C7_manual_submit listeningState FetchOutcome.exception ⟨"Enter", false⟩
        rfl rfl).2 (by decide)).1⟩⟩

/-- C8: a voice-button click while listening stops the engine and
clears the indicator, a click while idle starts continuous listening
and sets the indicator, and two clicks in a row with no intervening
speech restore both the listening state and the indicator, given that
the indicator mirrors the engine state as it does in every reachable
state. -/
theorem C8_voice_toggle (s : UIState) (hmirror : s.micActive = s.listening) :
    (s.listening = true →
      (voiceButtonClick s).1.listening = false ∧
      (voiceButtonClick s).1.micActive = false) ∧
    (s.listening = false →
      (voiceButtonClick s).1.listening = true ∧
      (voiceButtonClick s).1.micActive = true) ∧
    (voiceButtonClick (voiceButtonClick s).1).1.listening = s.listening ∧
    (voiceButtonClick (voiceButtonClick s).1).1.micActive = s.micActive := by
  cases h : s.listening <;> simp [voiceButtonClick, h, hmirror]

/-- C8 witness: the theorem at the initial idle state, showing in
particular that a double toggle returns Idle to Idle with the
indicator inactive. -/
theorem C8_voice_toggle_witness :
    initState.micActive = initState.listening ∧
    (voiceButtonClick (voiceButtonClick initState).1).1.listening = initState.listening ∧
    (voiceButtonClick (voiceButtonClick initState).1).1.micActive = initState.micActive :=
  ⟨rfl,
   (C8_voice_toggle initState rfl).2.2.1,
   (C8_voice_toggle initState rfl).2.2.2⟩

/-- C9: the query entry is always the first div a submission appends
and its content is assigned via innerHTML, as are the empty-query error
and the transport-exception error, so markup in them is parsed rather
than shown literally; only the server-error entry is assigned via
innerText and shows the serialized JSON payload literally. -/
theorem C9_render_modes (q : String) (payload : Json) (s : UIState)
    (outcome : FetchOutcome) :
    (appendedEntries (sendQueryToServer q outcome s).2).head? =
      some (queryDivOf s q) ∧
    (queryDivOf s q).mode = RenderMode.html ∧
    (queryDivOf s q).content = q ∧
    (appendedEntries (sendQueryToServer q FetchOutcome.exception s).2).getLast? =
      some (Entry.mk (s.nextId + 2) Role.error transportErrorText RenderMode.html) ∧
    (appendedEntries (sendQueryToServer q (FetchOutcome.httpError payload) s).2).getLast? =
      some (Entry.mk (s.nextId + 2) Role.error
        ("Error: " ++ jsonStringify2 payload) RenderMode.text) ∧
    (jsTrim s.queryField = "" →
      appendedEntries (sendButtonClick outcome s).2 = [emptyQueryErrorDiv s] ∧
      (emptyQueryErrorDiv s).mode = RenderMode.html) := by
  refine ⟨?_, rfl, rfl, ?_, ?_, fun hemp => ⟨?_, rfl⟩⟩
  · cases outcome <;>
      simp [appendedEntries, sendQueryToServer, sendSync]
  · simp [appendedEntries, sendQueryToServer, sendSync]
  · simp [appendedEntries, sendQueryToServer, sendSync]
  · simp [appendedEntries, sendButtonClick, hemp]

/-- C9 witness: the theorem at the whitespace-field state, the
exception outcome and a concrete payload, discharging the empty-trim
hypothesis of its last conjunct. -/
theorem C9_render_modes_witness :
    jsTrim whitespaceState.queryField = "" ∧
    appendedEntries (sendButtonClick FetchOutcome.exception whitespaceState).2 =
      [emptyQueryErrorDiv whitespaceState] ∧
    (emptyQueryErrorDiv whitespaceState).mode = RenderMode.html :=
  ⟨by decide,
   ((C9_render_modes "q" Json.null whitespaceState FetchOutcome.exception).2.2.2.2.2
      (by decide)).1,
   ((C9_render_modes "q" Json.null whitespaceState FetchOutcome.exception).2.2.2.2.2
      (by decide)).2⟩

end ChatDox
